import Mathlib

/-!
Shallow embedding of the DecisionAI scoring engine (`js/app.js`):
`loadWeights`, `PERSONALITY_MODS`, and `scoreOptions`.

Modelling conventions:
* JavaScript numbers are modelled as exact rationals (`ℚ`).
* A possibly-absent numeric field of an option object is `Option ℚ`
  (`none` = the property is missing / `undefined`).
* The JavaScript defaulting idiom `x || d` is `jsOr`: both a missing
  field and the number `0` are falsy, so both are replaced by `d`.
* `Number.prototype.toFixed` composed with unary `+` is modelled as exact
  rounding to the given number of decimals (round half up).
* `Array.prototype.sort` with the comparator
  `(a,b) => b.weighted_total - a.weighted_total` is a stable descending
  sort; it is modelled by a stable insertion sort (`sortByTotalDesc`).
* In the source, calling `scoreOptions` on an empty options array throws a
  `TypeError` when `scored[0].weighted_total` is read; this crash is
  modelled by returning `none`.  Every other input produces `some` result:
  the function contains no validation and no error signalling.
* The lookup `PERSONALITY_MODS[personality]` is an ordinary JavaScript
  property access, so it also finds properties inherited from
  `Object.prototype`: for personality strings such as "constructor" or
  "toString" the lookup is truthy (the inherited function or object), the
  `|| PERSONALITY_MODS.balanced` fallback is skipped, and every subsequent
  `(mod[k]||0)` reads `undefined || 0 = 0` — the blend then uses zero
  personality mods.  `PERSONALITY_MODS` below models the lookup, the
  fallback and the `(mod[k]||0)` field extraction together.
* Rational division by zero is `0` in Lean, while in JavaScript dividing
  by a blended weight sum of zero produces Infinity/NaN weights and NaN
  totals and confidence inside the returned object.  Theorems about the
  numeric contents of a result therefore carry a nonzero-blend-sum
  hypothesis; at a zero sum only the fact that a result object is
  returned at all (rather than an error being signalled) is asserted,
  on which both semantics agree.
-/

namespace DecisionAI

/-- An option record as consumed by the scoring engine.  Numeric attributes
are optional: `none` models an absent property. -/
structure Opt where
  id : Nat
  label : String
  cost : Option ℚ
  time_required : Option ℚ
  risk_level : Option ℚ
  priority : Option ℚ
  reward_potential : Option ℚ
deriving DecidableEq

/-- JavaScript `x || d` on an optional numeric field: `undefined` and `0`
are falsy and give `d`; any other number is returned unchanged. -/
def jsOr (x : Option ℚ) (d : ℚ) : ℚ :=
  match x with
  | none => d
  | some v => if v = 0 then d else v

/-- A full weight vector over the five criteria (all keys present). -/
structure Weights where
  cost : ℚ
  time : ℚ
  risk : ℚ
  priority : ℚ
  reward : ℚ
deriving DecidableEq

/-- A user-configured weight object; individual keys may be missing. -/
structure UserWeights where
  cost : Option ℚ
  time : Option ℚ
  risk : Option ℚ
  priority : Option ℚ
  reward : Option ℚ
deriving DecidableEq

/-- The default weight table of `loadWeights()`:
`{ cost:0.25, time:0.20, risk:0.25, priority:0.15, reward:0.15 }`. -/
def defaultWeights : UserWeights :=
  ⟨some 0.25, some 0.20, some 0.25, some 0.15, some 0.15⟩

/-- `loadWeights()`: the stored weight object if present, else the balanced
default table. -/
def loadWeights (stored : Option UserWeights) : UserWeights :=
  stored.getD defaultWeights

/-- Property names every plain object literal inherits from
`Object.prototype`.  For these strings `PERSONALITY_MODS[personality]` is a
truthy inherited function or object, so the `|| balanced` fallback in the
source is skipped even though no personality table exists. -/
def objectPrototypeNames : List String :=
  ["constructor", "hasOwnProperty", "isPrototypeOf", "propertyIsEnumerable",
   "toLocaleString", "toString", "valueOf", "__proto__",
   "__defineGetter__", "__defineSetter__", "__lookupGetter__", "__lookupSetter__"]

/-- The constant `PERSONALITY_MODS` table combined with the lookup
`PERSONALITY_MODS[personality] || PERSONALITY_MODS.balanced` performed by
`scoreOptions` and the per-key reads `(mod[k]||0)` in the blend: the three
declared personalities give their tables; an `Object.prototype` name gives
a truthy non-table value whose five `(mod[k]||0)` reads are all 0 (modelled
as the zero vector); any other string looks up `undefined` and falls back
to the balanced table. -/
def PERSONALITY_MODS (p : String) : Weights :=
  if p = "conservative" then ⟨0.25, 0.15, 0.40, 0.10, 0.10⟩
  else if p = "balanced" then ⟨0.25, 0.20, 0.25, 0.15, 0.15⟩
  else if p = "aggressive" then ⟨0.20, 0.20, 0.10, 0.20, 0.30⟩
  else if p ∈ objectPrototypeNames then ⟨0, 0, 0, 0, 0⟩
  else ⟨0.25, 0.20, 0.25, 0.15, 0.15⟩

/-- The pre-normalization blend `w[k] = (weights[k]||0)*0.6 + (mod[k]||0)*0.4`
computed by `scoreOptions`. -/
def blendRaw (weights : UserWeights) (personality : String) : Weights :=
  let mod := PERSONALITY_MODS personality
  ⟨jsOr weights.cost 0 * 0.6 + mod.cost * 0.4,
   jsOr weights.time 0 * 0.6 + mod.time * 0.4,
   jsOr weights.risk 0 * 0.6 + mod.risk * 0.4,
   jsOr weights.priority 0 * 0.6 + mod.priority * 0.4,
   jsOr weights.reward 0 * 0.6 + mod.reward * 0.4⟩

/-- The normalization divisor `t = Object.values(w).reduce((a,b)=>a+b,0)`. -/
def blendSum (weights : UserWeights) (personality : String) : ℚ :=
  let b := blendRaw weights personality
  b.cost + b.time + b.risk + b.priority + b.reward

/-- The blended, normalized weight vector used by `scoreOptions`
(`keys.forEach(k => w[k] /= t)`).  No check is made that `t` is nonzero. -/
def blendWeights (weights : UserWeights) (personality : String) : Weights :=
  let b := blendRaw weights personality
  let t := blendSum weights personality
  ⟨b.cost / t, b.time / t, b.risk / t, b.priority / t, b.reward / t⟩

/-- `maxCost = Math.max(...options.map(o=>o.cost||0), 1)`. -/
def maxCost (options : List Opt) : ℚ :=
  options.foldr (fun o m => max (jsOr o.cost 0) m) 1

/-- `maxTime = Math.max(...options.map(o=>o.time_required||0), 1)`. -/
def maxTime (options : List Opt) : ℚ :=
  options.foldr (fun o m => max (jsOr o.time_required 0) m) 1

/-- `cs = Math.max(0, 100 - ((o.cost||0)/maxCost)*100)`. -/
def costScore (mC : ℚ) (o : Opt) : ℚ :=
  max 0 (100 - jsOr o.cost 0 / mC * 100)

/-- `ts = Math.max(0, 100 - ((o.time_required||0)/maxTime)*100)`. -/
def timeScore (mT : ℚ) (o : Opt) : ℚ :=
  max 0 (100 - jsOr o.time_required 0 / mT * 100)

/-- `rs = (10-(o.risk_level||5))*10`. -/
def riskScore (o : Opt) : ℚ :=
  (10 - jsOr o.risk_level 5) * 10

/-- `ps = (o.priority||5)*10`. -/
def priorityScore (o : Opt) : ℚ :=
  jsOr o.priority 5 * 10

/-- `ws = (o.reward_potential||5)*10`. -/
def rewardScore (o : Opt) : ℚ :=
  jsOr o.reward_potential 5 * 10

/-- Exact model of `+x.toFixed(2)`: rounding to two decimals. -/
def round2 (q : ℚ) : ℚ := (round (q * 100) : ℤ) / 100

/-- Exact model of `+x.toFixed(1)`: rounding to one decimal. -/
def round1 (q : ℚ) : ℚ := (round (q * 10) : ℤ) / 10

/-- One scored entry of the `scored` array built inside `scoreOptions`
(before the ranks are assigned). -/
structure Scored where
  option_id : Nat
  label : String
  cost_score : ℚ
  time_score : ℚ
  risk_score : ℚ
  priority_score : ℚ
  reward_score : ℚ
  weighted_total : ℚ
  raw_risk : ℚ
deriving DecidableEq

/-- The body of `options.map(o => ...)` inside `scoreOptions`: sub-scores,
the weighted total from the unrounded sub-scores, and two-decimal rounding
of the stored fields. -/
def scoreOne (w : Weights) (mC mT : ℚ) (o : Opt) : Scored :=
  let cs := costScore mC o
  let ts := timeScore mT o
  let rs := riskScore o
  let ps := priorityScore o
  let ws := rewardScore o
  let total := cs * w.cost + ts * w.time + rs * w.risk + ps * w.priority + ws * w.reward
  ⟨o.id, o.label, round2 cs, round2 ts, round2 rs, round2 ps, round2 ws,
   round2 total, jsOr o.risk_level 5⟩

/-- Stable insertion of one element into a list sorted descending by
`weighted_total`: a later element passes an earlier one only when its
total is strictly larger, which is exactly the order produced by the
stable `Array.prototype.sort` with comparator
`(a,b) => b.weighted_total - a.weighted_total`. -/
def insertDesc (a : Scored) : List Scored → List Scored
  | [] => [a]
  | b :: l => if b.weighted_total < a.weighted_total then a :: b :: l
              else b :: insertDesc a l

/-- Stable descending sort by `weighted_total`
(`scored.sort((a,b) => b.weighted_total - a.weighted_total)`). -/
def sortByTotalDesc (l : List Scored) : List Scored :=
  l.foldl (fun acc a => insertDesc a acc) []

/-- A scored entry after `scored.forEach((s,i) => s.rank = i+1)`. -/
structure Ranked extends Scored where
  rank : Nat
deriving DecidableEq

/-- Rank assignment starting from index `i`
(models `forEach((s,i) => s.rank = i+1)`). -/
def rankFrom : List Scored → Nat → List Ranked
  | [], _ => []
  | s :: l, i => ⟨s, i + 1⟩ :: rankFrom l (i + 1)

/-- Rank assignment over the whole sorted list, first rank `1`. -/
def assignRanks (l : List Scored) : List Ranked :=
  rankFrom l 0

/-- `raw<=2.5?'low':raw<=5?'medium':raw<=7.5?'high':'critical'`. -/
def classifyRisk (raw : ℚ) : String :=
  if raw ≤ 2.5 then "low"
  else if raw ≤ 5 then "medium"
  else if raw ≤ 7.5 then "high"
  else "critical"

/-- The object returned by `scoreOptions`. -/
structure AnalysisResult where
  breakdown : List Ranked
  bestId : Nat
  confidence : ℚ
  riskLevel : String
deriving DecidableEq

/-- The scoring engine `scoreOptions(options, weights, personality)`.
`none` models the `TypeError` thrown on an empty options array (the read
of `scored[0].weighted_total`); there is no other failure path. -/
def scoreOptions (options : List Opt) (weights : UserWeights)
    (personality : String) : Option AnalysisResult :=
  let w := blendWeights weights personality
  let mC := maxCost options
  let mT := maxTime options
  let scored := options.map (scoreOne w mC mT)
  match sortByTotalDesc scored with
  | [] => none
  | best :: rest =>
    let gap := best.weighted_total - ((rest.head?.map Scored.weighted_total).getD 0)
    let confidence := round1 (min 99 (max 50 (50 + gap / 100 * 49)))
    some ⟨assignRanks (best :: rest), best.option_id, confidence,
          classifyRisk best.raw_risk⟩

/-- Projection of a result onto the list of (rounded) weighted totals, in
rank order. -/
def totalsOf (r : AnalysisResult) : List ℚ :=
  r.breakdown.map (fun b => b.weighted_total)

/-- The gap between the top two weighted totals of a result, `0` when there
is no runner-up (mirrors `scored[0].weighted_total - (scored[1]?.weighted_total || 0)`). -/
def gapOf (r : AnalysisResult) : ℚ :=
  (totalsOf r).headD 0 - (totalsOf r).getD 1 0

/-- The attribute tuple of an option: everything the sub-scores depend on
(identifier and label excluded). -/
def attrsOf (o : Opt) : Option ℚ × Option ℚ × Option ℚ × Option ℚ × Option ℚ :=
  (o.cost, o.time_required, o.risk_level, o.priority, o.reward_potential)

/-- First option of the worked example in the specification: cost 0, time 0,
risk 0, priority 10, reward 10. -/
def exOptA : Opt := ⟨1, "A", some 0, some 0, some 0, some 10, some 10⟩

/-- Second option of the worked example: cost 1000, time 100, risk 10,
priority 0, reward 0. -/
def exOptB : Opt := ⟨2, "B", some 1000, some 100, some 10, some 0, some 0⟩

/-- An option carrying the explicit value 0 for risk_level and priority. -/
def zeroAttrOpt : Opt := ⟨7, "Z", none, none, some 0, some 0, none⟩

/-- An option with ordinary nonzero risk and priority values. -/
def midAttrOpt : Opt := ⟨8, "M", none, none, some 3, some 4, none⟩

/-- A lone option, used to probe the missing size validation. -/
def soloOpt : Opt := ⟨3, "S", some 10, some 2, some 4, some 6, some 7⟩

/-- User weights whose 0.6/0.4 blend with the balanced personality table
sums to zero (user cost weight is the negative number -2/3). -/
def degenerateWeights : UserWeights := ⟨some (-(2 / 3 : ℚ)), none, none, none, none⟩

/-- A featureless option (all numeric attributes absent). -/
def plainOptA : Opt := ⟨1, "A", none, none, none, none, none⟩

/-- A second featureless option. -/
def plainOptB : Opt := ⟨2, "B", none, none, none, none, none⟩

/-- Cost example of the specification: cost 100, all other attributes 5. -/
def cost100Opt : Opt := ⟨1, "A", some 100, none, some 5, some 5, some 5⟩

/-- Cost example of the specification: cost 200, all other attributes equal
to `cost100Opt`. -/
def cost200Opt : Opt := ⟨2, "B", some 200, none, some 5, some 5, some 5⟩

/-- A clear winner whose risk_level is the explicit number 0. -/
def riskZeroWinner : Opt := ⟨1, "W", none, none, some 0, some 10, some 10⟩

/-- A clearly worse option with risk_level 9, priority 1, reward 1. -/
def riskNineLoser : Opt := ⟨2, "L", none, none, some 9, some 1, some 1⟩

/-- First of two options whose rounded weighted totals differ by exactly 1
under balanced weights (cost 96 vs 100, everything else equal). -/
def gapOneOptA : Opt := ⟨1, "A", some 96, none, some 5, some 5, some 5⟩

/-- Second of the gap-one pair: cost 100. -/
def gapOneOptB : Opt := ⟨2, "B", some 100, none, some 5, some 5, some 5⟩

/-- A single option with every attribute equal to 5. -/
def allFivesOpt : Opt := ⟨9, "F", some 5, some 5, some 5, some 5, some 5⟩

/-- A user weight object configuring only the cost criterion (weight 1). -/
def costOnlyWeights : UserWeights := ⟨some 1, none, none, none, none⟩

/-- First of two attribute-identical options. -/
def twinOptA : Opt := ⟨1, "A", some 8, some 2, some 3, some 6, some 7⟩

/-- Second of two attribute-identical options (only id and label differ). -/
def twinOptB : Opt := ⟨2, "B", some 8, some 2, some 3, some 6, some 7⟩

theorem pm_balanced : PERSONALITY_MODS "balanced" = ⟨0.25, 0.20, 0.25, 0.15, 0.15⟩ := by
  simp [PERSONALITY_MODS]

theorem pm_of_unknown (p : String) (h1 : p ≠ "conservative") (h2 : p ≠ "balanced")
    (h3 : p ≠ "aggressive") (h4 : p ∉ objectPrototypeNames) :
    PERSONALITY_MODS p = PERSONALITY_MODS "balanced" := by
  simp [PERSONALITY_MODS, h1, h2, h3, h4]

theorem pm_constructor : PERSONALITY_MODS "constructor" = ⟨0, 0, 0, 0, 0⟩ := by
  simp [PERSONALITY_MODS, objectPrototypeNames]

theorem insertDesc_length (a : Scored) (l : List Scored) :
    (insertDesc a l).length = l.length + 1 := by
  induction l with
  | nil => simp [insertDesc]
  | cons b l ih => simp only [insertDesc]; split <;> simp [ih]

theorem sortAux_length (l : List Scored) :
    ∀ acc : List Scored,
      (l.foldl (fun acc a => insertDesc a acc) acc).length = acc.length + l.length := by
  induction l with
  | nil => intro acc; simp
  | cons a l ih =>
    intro acc
    simp only [List.foldl_cons]
    rw [ih (insertDesc a acc), insertDesc_length]
    simp only [List.length_cons]
    omega

theorem sortByTotalDesc_length (l : List Scored) :
    (sortByTotalDesc l).length = l.length := by
  simpa [sortByTotalDesc] using sortAux_length l []

theorem mem_insertDesc {x a : Scored} {l : List Scored} :
    x ∈ insertDesc a l ↔ x = a ∨ x ∈ l := by
  induction l with
  | nil => simp [insertDesc]
  | cons b l ih =>
    simp only [insertDesc]
    split
    · simp [List.mem_cons]
      try tauto
    · simp [List.mem_cons, ih]
      try tauto

theorem mem_sortAux (l : List Scored) :
    ∀ (acc : List Scored) (x : Scored),
      x ∈ l.foldl (fun acc a => insertDesc a acc) acc ↔ x ∈ acc ∨ x ∈ l := by
  induction l with
  | nil => intro acc x; simp
  | cons a l ih =>
    intro acc x
    simp only [List.foldl_cons]
    rw [ih (insertDesc a acc)]
    simp only [mem_insertDesc, List.mem_cons]
    tauto

theorem mem_sortByTotalDesc {x : Scored} {l : List Scored} :
    x ∈ sortByTotalDesc l ↔ x ∈ l := by
  simpa [sortByTotalDesc] using mem_sortAux l [] x

theorem insertDesc_of_not_lt {a : Scored} {l : List Scored}
    (h : ∀ b ∈ l, ¬ b.weighted_total < a.weighted_total) :
    insertDesc a l = l ++ [a] := by
  induction l with
  | nil => simp [insertDesc]
  | cons b l ih =>
    simp only [insertDesc]
    rw [if_neg (h b (List.mem_cons_self b l))]
    rw [ih (fun c hc => h c (List.mem_cons_of_mem b hc))]
    simp

theorem sortAux_const (c : ℚ) (l : List Scored) :
    ∀ acc : List Scored, (∀ x ∈ acc, x.weighted_total = c) →
      (∀ x ∈ l, x.weighted_total = c) →
      l.foldl (fun acc a => insertDesc a acc) acc = acc ++ l := by
  induction l with
  | nil => intro acc _ _; simp
  | cons a l ih =>
    intro acc hacc hl
    simp only [List.foldl_cons]
    have hins : insertDesc a acc = acc ++ [a] := by
      apply insertDesc_of_not_lt
      intro b hb
      rw [hacc b hb, hl a (List.mem_cons_self a l)]
      exact lt_irrefl c
    rw [hins, ih (acc ++ [a])]
    · simp
    · intro x hx
      rcases List.mem_append.mp hx with h | h
      · exact hacc x h
      · simp at h; rw [h]; exact hl a (List.mem_cons_self a l)
    · intro x hx; exact hl x (List.mem_cons_of_mem a hx)

theorem sortByTotalDesc_of_const {l : List Scored}
    (h : ∀ x ∈ l, ∀ y ∈ l, x.weighted_total = y.weighted_total) :
    sortByTotalDesc l = l := by
  cases l with
  | nil => rfl
  | cons a l =>
    have := sortAux_const a.weighted_total (a :: l) []
      (by intro x hx; simp at hx)
      (by intro x hx; exact h x hx a (List.mem_cons_self a l))
    simpa [sortByTotalDesc] using this

theorem rankFrom_map_toScored (l : List Scored) :
    ∀ i : Nat, (rankFrom l i).map (fun b => b.toScored) = l := by
  induction l with
  | nil => intro i; rfl
  | cons s l ih => intro i; simp [rankFrom, ih]

theorem rankFrom_map_option_id (l : List Scored) :
    ∀ i : Nat, (rankFrom l i).map (fun b => b.option_id) = l.map (fun s => s.option_id) := by
  induction l with
  | nil => intro i; rfl
  | cons s l ih => intro i; simp [rankFrom, ih]

theorem rankFrom_map_total (l : List Scored) :
    ∀ i : Nat,
      (rankFrom l i).map (fun b => b.weighted_total) = l.map (fun s => s.weighted_total) := by
  induction l with
  | nil => intro i; rfl
  | cons s l ih => intro i; simp [rankFrom, ih]

theorem rankFrom_map_rank (l : List Scored) :
    ∀ i : Nat, (rankFrom l i).map (fun b => b.rank) = List.range' (i + 1) l.length := by
  induction l with
  | nil => intro i; rfl
  | cons s l ih => intro i; simp [rankFrom, ih, List.range']

theorem scoreOne_option_id (w : Weights) (mC mT : ℚ) (o : Opt) :
    (scoreOne w mC mT o).option_id = o.id := rfl

theorem scoreOne_raw_risk (w : Weights) (mC mT : ℚ) (o : Opt) :
    (scoreOne w mC mT o).raw_risk = jsOr o.risk_level 5 := rfl

theorem scoreOne_total_congr (w : Weights) (mC mT : ℚ) {a b : Opt}
    (h : attrsOf a = attrsOf b) :
    (scoreOne w mC mT a).weighted_total = (scoreOne w mC mT b).weighted_total := by
  simp only [attrsOf, Prod.mk.injEq] at h
  obtain ⟨h1, h2, h3, h4, h5⟩ := h
  simp [scoreOne, costScore, timeScore, riskScore, priorityScore, rewardScore,
    h1, h2, h3, h4, h5]

theorem scoreOptions_cons (os : List Opt) (w : UserWeights) (p : String)
    (best : Scored) (rest : List Scored)
    (h : sortByTotalDesc
        (os.map (scoreOne (blendWeights w p) (maxCost os) (maxTime os))) = best :: rest) :
    scoreOptions os w p =
      some ⟨rankFrom (best :: rest) 0, best.option_id,
        round1 (min 99 (max 50 (50 +
          (best.weighted_total - ((rest.head?.map Scored.weighted_total).getD 0)) / 100 * 49))),
        classifyRisk best.raw_risk⟩ := by
  simp only [scoreOptions, assignRanks, h]

theorem scoreOptions_sorted_cons (os : List Opt) (w : UserWeights) (p : String)
    (h : os ≠ []) :
    ∃ (best : Scored) (rest : List Scored),
      sortByTotalDesc
        (os.map (scoreOne (blendWeights w p) (maxCost os) (maxTime os))) = best :: rest := by
  have hlen : (sortByTotalDesc
      (os.map (scoreOne (blendWeights w p) (maxCost os) (maxTime os)))).length
      = os.length := by
    rw [sortByTotalDesc_length, List.length_map]
  cases hs : sortByTotalDesc
      (os.map (scoreOne (blendWeights w p) (maxCost os) (maxTime os))) with
  | nil =>
    rw [hs] at hlen
    cases os with
    | nil => exact absurd rfl h
    | cons a l => simp at hlen
  | cons b r => exact ⟨b, r, rfl⟩

theorem scoreOptions_isSome_of_ne_nil (os : List Opt) (w : UserWeights) (p : String)
    (h : os ≠ []) : (scoreOptions os w p).isSome = true := by
  obtain ⟨best, rest, hs⟩ := scoreOptions_sorted_cons os w p h
  rw [scoreOptions_cons os w p best rest hs]
  rfl

theorem scoreOptions_nil (w : UserWeights) (p : String) :
    scoreOptions [] w p = none := rfl

theorem round1_bounds {q : ℚ} (h1 : 50 ≤ q) (h2 : q ≤ 99) :
    50 ≤ round1 q ∧ round1 q ≤ 99 := by
  have heq : round1 q = ((⌊q * 10 + 1 / 2⌋ : ℤ) : ℚ) / 10 := by
    rw [round1, round_eq]
  have hl : (500 : ℤ) ≤ ⌊q * 10 + 1 / 2⌋ := by
    apply Int.le_floor.mpr
    push_cast
    linarith
  have hfl : ((⌊q * 10 + 1 / 2⌋ : ℤ) : ℚ) ≤ q * 10 + 1 / 2 := Int.floor_le _
  have hu : ⌊q * 10 + 1 / 2⌋ ≤ 990 := by
    have h991 : ((⌊q * 10 + 1 / 2⌋ : ℤ) : ℚ) < 991 := by linarith
    have : ⌊q * 10 + 1 / 2⌋ < 991 := by exact_mod_cast h991
    omega
  constructor
  · rw [heq]
    have : ((500 : ℤ) : ℚ) ≤ ((⌊q * 10 + 1 / 2⌋ : ℤ) : ℚ) := by exact_mod_cast hl
    push_cast at this ⊢
    linarith
  · rw [heq]
    have : ((⌊q * 10 + 1 / 2⌋ : ℤ) : ℚ) ≤ ((990 : ℤ) : ℚ) := by exact_mod_cast hu
    push_cast at this ⊢
    linarith

/-- C1 counterexample: on the specification's worked example the engine
returns weighted totals 87.50 and 15.00, confidence 85.5 and risk level
"medium" — not the claimed 100.00 / 0.00 / 99.0 / "low" (the explicit
risk_level 0, priority 0 and reward 0 are falsy in JavaScript and are
replaced by the neutral default 5). -/
theorem claim_C1_cex :
    ((scoreOptions [exOptA, exOptB] defaultWeights "balanced").map
      (fun r => (totalsOf r, r.confidence, r.riskLevel)))
      = some ([87.5, 15], 85.5, "medium")
    ∧ ¬ ((87.5 : ℚ) = 100 ∧ (85.5 : ℚ) = 99 ∧ "medium" = "low") := by
  constructor
  · norm_num [scoreOptions, blendWeights, blendRaw, blendSum, pm_balanced, defaultWeights,
      exOptA, exOptB, jsOr, maxCost, maxTime, scoreOne, costScore, timeScore, riskScore,
      priorityScore, rewardScore, round2, round1, round_eq, insertDesc, sortByTotalDesc,
      rankFrom, assignRanks, classifyRisk, max_def, min_def, totalsOf]
  · intro h
    exact absurd h.1 (by norm_num)

/-- C1 (amended): on the worked example with balanced default weights and
personality "balanced", option 1 ranks first with weighted_total 87.50
(its risk_level 0 is falsy and scores as the default 5), option 2 scores
15.00 (its priority 0 and reward 0 likewise default to 5), the gap is
72.5, the confidence is 85.5, and the winner's risk level is "medium". -/
theorem claim_C1 :
    scoreOptions [exOptA, exOptB] defaultWeights "balanced" =
      some ⟨[⟨⟨1, "A", 100, 100, 50, 100, 100, 87.5, 5⟩, 1⟩,
             ⟨⟨2, "B", 0, 0, 0, 50, 50, 15, 10⟩, 2⟩], 1, 85.5, "medium"⟩ := by
  norm_num [scoreOptions, blendWeights, blendRaw, blendSum, pm_balanced, defaultWeights,
    exOptA, exOptB, jsOr, maxCost, maxTime, scoreOne, costScore, timeScore, riskScore,
    priorityScore, rewardScore, round2, round1, round_eq, insertDesc, sortByTotalDesc,
    rankFrom, assignRanks, classifyRisk, max_def, min_def]

/-- C2 counterexample: an option whose risk_level is the explicit, in-range
value 0 gets risk sub-score 50 (not the claimed 100), and an explicit
priority 0 gets priority sub-score 50 (not the claimed 0): the JavaScript
default `o.risk_level||5` treats the number 0 like a missing field. -/
theorem claim_C2_cex :
    zeroAttrOpt.risk_level = some 0 ∧ riskScore zeroAttrOpt = 50
    ∧ zeroAttrOpt.priority = some 0 ∧ priorityScore zeroAttrOpt = 50
    ∧ ¬ (riskScore zeroAttrOpt = 100 ∧ priorityScore zeroAttrOpt = 0) := by
  refine ⟨rfl, by norm_num [riskScore, jsOr, zeroAttrOpt], rfl,
    by norm_num [priorityScore, jsOr, zeroAttrOpt], ?_⟩
  intro h
  have := h.1
  rw [show riskScore zeroAttrOpt = 50 by norm_num [riskScore, jsOr, zeroAttrOpt]] at this
  exact absurd this (by norm_num)

/-- C2 (amended): a present nonzero risk_level r in (0,10] yields risk
sub-score (10 - r) * 10, but both a missing risk_level and the explicit
value 0 are defaulted to 5 (sub-score 50); analogously a present nonzero
priority p yields p * 10, and both a missing priority and the explicit
value 0 default to 5 (sub-score 50). -/
theorem claim_C2 :
    (∀ (o : Opt) (r : ℚ), o.risk_level = some r → r ≠ 0 → riskScore o = (10 - r) * 10)
    ∧ (∀ o : Opt, o.risk_level = none ∨ o.risk_level = some 0 → riskScore o = 50)
    ∧ (∀ (o : Opt) (q : ℚ), o.priority = some q → q ≠ 0 → priorityScore o = q * 10)
    ∧ (∀ o : Opt, o.priority = none ∨ o.priority = some 0 → priorityScore o = 50) := by
  refine ⟨?_, ?_, ?_, ?_⟩
  · intro o r h hr
    simp [riskScore, jsOr, h, hr]
  · rintro o (h | h) <;> simp [riskScore, jsOr, h] <;> norm_num
  · intro o q h hq
    simp [priorityScore, jsOr, h, hq]
  · rintro o (h | h) <;> simp [priorityScore, jsOr, h] <;> norm_num

/-- C2 witness: the amended statement applied to concrete options — risk 3
scores 70, explicit risk 0 scores 50, priority 4 scores 40, explicit
priority 0 scores 50. -/
theorem claim_C2_w :
    riskScore midAttrOpt = 70 ∧ riskScore zeroAttrOpt = 50
    ∧ priorityScore midAttrOpt = 40 ∧ priorityScore zeroAttrOpt = 50 := by
  have h1 := claim_C2.1 midAttrOpt 3 rfl (by norm_num)
  have h2 := claim_C2.2.1 zeroAttrOpt (Or.inr rfl)
  have h3 := claim_C2.2.2.1 midAttrOpt 4 rfl (by norm_num)
  have h4 := claim_C2.2.2.2 zeroAttrOpt (Or.inr rfl)
  norm_num at h1 h3
  exact ⟨h1, h2, h3, h4⟩

/-- C3 counterexample: with a single option (fewer than two), the engine
happily returns an AnalysisResult instead of signalling an error, and with
an empty list it crashes (modelled as `none`) rather than rejecting. -/
theorem claim_C3_cex :
    (scoreOptions [soloOpt] defaultWeights "balanced").isSome = true
    ∧ scoreOptions [] defaultWeights "balanced" = none := by
  exact ⟨scoreOptions_isSome_of_ne_nil _ _ _ (by simp), rfl⟩

/-- C3 (amended): `scoreOptions` performs no input validation at all — it
returns a result for every nonempty options list (including a singleton,
whose gap is computed against 0) and crashes with a TypeError (modelled as
`none`) exactly on the empty list; labels are never inspected.  The
"at least 2 options" check lives in the callers, not the engine. -/
theorem claim_C3 :
    ∀ (os : List Opt) (w : UserWeights) (p : String),
      (scoreOptions os w p).isSome = true ↔ os ≠ [] := by
  intro os w p
  constructor
  · intro h hnil
    subst hnil
    rw [scoreOptions_nil] at h
    simp at h
  · exact scoreOptions_isSome_of_ne_nil os w p

/-- C5 counterexample: for the two options identical except cost 100 vs 200
(maxCost = 200), the engine's cost sub-scores are 50 and 0 — not the
claimed 100 and 50 (the claimed numbers contradict the specification's own
formula max(0, 100 - (cost/maxCost)*100)). -/
theorem claim_C5_cex :
    ((scoreOptions [cost100Opt, cost200Opt] defaultWeights "balanced").map
      (fun r => r.breakdown.map (fun b => (b.option_id, b.cost_score))))
      = some [(1, 50), (2, 0)]
    ∧ ¬ ((50 : ℚ) = 100 ∧ (0 : ℚ) = 50) := by
  constructor
  · norm_num [scoreOptions, blendWeights, blendRaw, blendSum, pm_balanced, defaultWeights,
      cost100Opt, cost200Opt, jsOr, maxCost, maxTime, scoreOne, costScore, timeScore,
      riskScore, priorityScore, rewardScore, round2, round1, round_eq, insertDesc,
      sortByTotalDesc, rankFrom, assignRanks, classifyRisk, max_def, min_def]
  · intro h
    exact absurd h.1 (by norm_num)

/-- C5 (amended): with costs 100 and 200 and maxCost = 200, the cost
sub-scores are 50 and 0 respectively, exactly per the formula
max(0, 100 - (cost/maxCost)*100). -/
theorem claim_C5 :
    costScore (maxCost [cost100Opt, cost200Opt]) cost100Opt = 50
    ∧ costScore (maxCost [cost100Opt, cost200Opt]) cost200Opt = 0
    ∧ ((scoreOptions [cost100Opt, cost200Opt] defaultWeights "balanced").map
        (fun r => r.breakdown.map (fun b => (b.option_id, b.cost_score))))
        = some [(1, 50), (2, 0)] := by
  refine ⟨?_, ?_, ?_⟩
  · norm_num [costScore, maxCost, jsOr, cost100Opt, cost200Opt, max_def]
  · norm_num [costScore, maxCost, jsOr, cost100Opt, cost200Opt, max_def]
  · norm_num [scoreOptions, blendWeights, blendRaw, blendSum, pm_balanced, defaultWeights,
      cost100Opt, cost200Opt, jsOr, maxCost, maxTime, scoreOne, costScore, timeScore,
      riskScore, priorityScore, rewardScore, round2, round1, round_eq, insertDesc,
      sortByTotalDesc, rankFrom, assignRanks, classifyRisk, max_def, min_def]

/-- C9: blending the balanced weight table with the balanced personality is
a fixed point — the 0.6/0.4 blend of the table with itself, followed by
normalization by the sum 1, returns the balanced table unchanged. -/
theorem claim_C9 :
    blendWeights defaultWeights "balanced" = ⟨0.25, 0.20, 0.25, 0.15, 0.15⟩ := by
  simp [blendWeights, blendRaw, blendSum, pm_balanced, defaultWeights, jsOr]
  norm_num

/-- C4 counterexample: the user weight object with cost weight -2/3 blends
with the balanced personality to a weight vector summing to zero, yet the
engine still returns a result object instead of rejecting with an error
(the source divides by the zero sum unconditionally). -/
theorem claim_C4_cex :
    blendSum degenerateWeights "balanced" = 0
    ∧ (scoreOptions [plainOptA, plainOptB] degenerateWeights "balanced").isSome = true := by
  constructor
  · norm_num [blendSum, blendRaw, pm_balanced, degenerateWeights, jsOr]
  · exact scoreOptions_isSome_of_ne_nil _ _ _ (by simp)

/-- C4 (amended): the engine never checks the blended weight sum — for any
nonempty options list it returns a result even when the blended weight
vector sums to zero (in JavaScript the division yields NaN scores; no
error is signalled either way). -/
theorem claim_C4 :
    ∀ (os : List Opt) (w : UserWeights) (p : String),
      os ≠ [] → blendSum w p = 0 → (scoreOptions os w p).isSome = true := by
  intro os w p hne _
  exact scoreOptions_isSome_of_ne_nil os w p hne

/-- C4 witness: the amended statement instantiated at the degenerate weight
vector and two concrete options. -/
theorem claim_C4_w :
    (scoreOptions [plainOptA, plainOptB] degenerateWeights "balanced").isSome = true :=
  claim_C4 [plainOptA, plainOptB] degenerateWeights "balanced" (by simp)
    (by norm_num [blendSum, blendRaw, pm_balanced, degenerateWeights, jsOr])

/-- C6 counterexample: in a two-option set whose winner carries the
explicit risk_level 0, the engine reports risk level "medium" (0 is falsy
and is defaulted to 5 before classification), not the "low" demanded by
applying the threshold table to the input risk_level 0. -/
theorem claim_C6_cex :
    riskZeroWinner.risk_level = some 0
    ∧ ((scoreOptions [riskZeroWinner, riskNineLoser] defaultWeights "balanced").map
        (fun r => (r.bestId, r.riskLevel))) = some (1, "medium")
    ∧ "medium" ≠ "low" := by
  refine ⟨rfl, ?_, by simp⟩
  norm_num [scoreOptions, blendWeights, blendRaw, blendSum, pm_balanced, defaultWeights,
    riskZeroWinner, riskNineLoser, jsOr, maxCost, maxTime, scoreOne, costScore, timeScore,
    riskScore, priorityScore, rewardScore, round2, round1, round_eq, insertDesc,
    sortByTotalDesc, rankFrom, assignRanks, classifyRisk, max_def, min_def]

/-- C6 (amended): for every option set of size at least 2, the categorical
risk level of the result is the fixed threshold table applied to the
winning option's risk_level after the engine's falsy defaulting — a
missing risk_level and the explicit value 0 are both replaced by 5 first;
the thresholds themselves are 2.5 / 5 / 7.5 as claimed. -/
theorem claim_C6 :
    ∀ (os : List Opt) (w : UserWeights) (p : String), 2 ≤ os.length →
      ∃ o ∈ os, ∃ r, scoreOptions os w p = some r
        ∧ r.bestId = o.id ∧ r.riskLevel = classifyRisk (jsOr o.risk_level 5) := by
  intro os w p hlen
  have hne : os ≠ [] := by
    intro h
    subst h
    simp at hlen
  obtain ⟨best, rest, hs⟩ := scoreOptions_sorted_cons os w p hne
  have hmemsort : best ∈ sortByTotalDesc
      (os.map (scoreOne (blendWeights w p) (maxCost os) (maxTime os))) := by
    rw [hs]
    exact List.mem_cons_self _ _
  have hmem := mem_sortByTotalDesc.mp hmemsort
  obtain ⟨o, ho, hbo⟩ := List.mem_map.mp hmem
  subst hbo
  refine ⟨o, ho, _, scoreOptions_cons os w p _ rest hs, ?_, ?_⟩
  · rfl
  · rfl

/-- C6 witness: the amended statement instantiated at a concrete
two-option set. -/
theorem claim_C6_w :
    ∃ o ∈ [riskZeroWinner, riskNineLoser],
      ∃ r, scoreOptions [riskZeroWinner, riskNineLoser] defaultWeights "balanced" = some r
        ∧ r.bestId = o.id ∧ r.riskLevel = classifyRisk (jsOr o.risk_level 5) :=
  claim_C6 [riskZeroWinner, riskNineLoser] defaultWeights "balanced" (by simp)

/-- Helper: the gap read off a result built from a ranked sorted list is the
difference between the top two stored totals. -/
theorem gapOf_rankFrom (best : Scored) (rest : List Scored) (bid : Nat)
    (conf : ℚ) (rl : String) :
    gapOf ⟨rankFrom (best :: rest) 0, bid, conf, rl⟩ =
      best.weighted_total - ((rest.head?.map Scored.weighted_total).getD 0) := by
  simp only [gapOf, totalsOf, rankFrom_map_total]
  cases rest <;> simp

/-- C7 counterexample: on a pair with gap exactly 1 the returned confidence
is 50.5, while the claimed formula clamp(50 + (gap/100)*49, 50, 99) gives
50.49 — the source additionally rounds the confidence to one decimal. -/
theorem claim_C7_cex :
    ((scoreOptions [gapOneOptA, gapOneOptB] defaultWeights "balanced").map
      (fun r => (totalsOf r, r.confidence))) = some ([48.5, 47.5], 50.5)
    ∧ (50.5 : ℚ) ≠ min 99 (max 50 (50 + (48.5 - 47.5) / 100 * 49)) := by
  constructor
  · norm_num [scoreOptions, blendWeights, blendRaw, blendSum, pm_balanced, defaultWeights,
      gapOneOptA, gapOneOptB, jsOr, maxCost, maxTime, scoreOne, costScore, timeScore,
      riskScore, priorityScore, rewardScore, round2, round1, round_eq, insertDesc,
      sortByTotalDesc, rankFrom, assignRanks, classifyRisk, max_def, min_def, totalsOf]
  · norm_num [max_def, min_def]

/-- C7 (amended): for every option set of size at least 2 with a
non-degenerate blended weight vector, the returned confidence equals
clamp(50 + (gap/100)*49, 50, 99) rounded to one decimal, where gap is the
difference between the two best (rounded) weighted totals; in particular
the confidence always lies in the interval [50, 99]. -/
theorem claim_C7 :
    ∀ (os : List Opt) (w : UserWeights) (p : String),
      2 ≤ os.length → blendSum w p ≠ 0 →
      ∃ r, scoreOptions os w p = some r
        ∧ r.confidence = round1 (min 99 (max 50 (50 + gapOf r / 100 * 49)))
        ∧ 50 ≤ r.confidence ∧ r.confidence ≤ 99 := by
  intro os w p hlen _
  have hne : os ≠ [] := by
    intro h
    subst h
    simp at hlen
  obtain ⟨best, rest, hs⟩ := scoreOptions_sorted_cons os w p hne
  refine ⟨_, scoreOptions_cons os w p best rest hs, ?_, ?_, ?_⟩
  · rw [gapOf_rankFrom]
  · exact (round1_bounds (le_min (by norm_num) (le_max_left _ _)) (min_le_left _ _)).1
  · exact (round1_bounds (le_min (by norm_num) (le_max_left _ _)) (min_le_left _ _)).2

/-- C7 witness: the amended statement instantiated at a concrete pair with
the balanced weights (whose blend sum is 1). -/
theorem claim_C7_w :
    ∃ r, scoreOptions [gapOneOptA, gapOneOptB] defaultWeights "balanced" = some r
      ∧ r.confidence = round1 (min 99 (max 50 (50 + gapOf r / 100 * 49)))
      ∧ 50 ≤ r.confidence ∧ r.confidence ≤ 99 :=
  claim_C7 [gapOneOptA, gapOneOptB] defaultWeights "balanced" (by simp)
    (by norm_num [blendSum, blendRaw, pm_balanced, defaultWeights, jsOr])

/-- C8 counterexample: a list consisting of a single option (all attributes
5) is a list of attribute-identical options, yet the returned confidence
is 63.5, not 50 — the gap is then computed against 0, so the claim only
holds from two options upward. -/
theorem claim_C8_cex :
    ((scoreOptions [allFivesOpt] defaultWeights "balanced").map
      (fun r => (r.confidence, r.breakdown.map (fun b => b.rank)))) = some (63.5, [1])
    ∧ (63.5 : ℚ) ≠ 50 := by
  constructor
  · norm_num [scoreOptions, blendWeights, blendRaw, blendSum, pm_balanced, defaultWeights,
      allFivesOpt, jsOr, maxCost, maxTime, scoreOne, costScore, timeScore, riskScore,
      priorityScore, rewardScore, round2, round1, round_eq, insertDesc, sortByTotalDesc,
      rankFrom, assignRanks, classifyRisk, max_def, min_def]
  · norm_num

/-- C8 (amended): for every list of at least two attribute-identical
options, scored with a blended weight vector that does not sum to zero
(so no NaN arithmetic arises in the source), the stable sort leaves the
input order unchanged: the returned confidence is 50, the breakdown lists
the option ids in input order, and the i-th input option receives rank
i. -/
theorem claim_C8 :
    ∀ (os : List Opt) (w : UserWeights) (p : String),
      2 ≤ os.length → blendSum w p ≠ 0 →
      (∀ x ∈ os, ∀ y ∈ os, attrsOf x = attrsOf y) →
      ∃ r, scoreOptions os w p = some r
        ∧ r.confidence = 50
        ∧ r.breakdown.map (fun b => b.option_id) = os.map (fun o => o.id)
        ∧ r.breakdown.map (fun b => b.rank) = List.range' 1 os.length := by
  intro os w p hlen _ hattr
  obtain ⟨a, os1, rfl⟩ : ∃ a t, os = a :: t := by
    cases os with
    | nil => simp at hlen
    | cons a t => exact ⟨a, t, rfl⟩
  obtain ⟨b, os2, rfl⟩ : ∃ b t, os1 = b :: t := by
    cases os1 with
    | nil => simp at hlen
    | cons b t => exact ⟨b, t, rfl⟩
  have hconst : ∀ x ∈ (a :: b :: os2).map
        (scoreOne (blendWeights w p) (maxCost (a :: b :: os2)) (maxTime (a :: b :: os2))),
      ∀ y ∈ (a :: b :: os2).map
        (scoreOne (blendWeights w p) (maxCost (a :: b :: os2)) (maxTime (a :: b :: os2))),
      x.weighted_total = y.weighted_total := by
    intro x hx y hy
    obtain ⟨ox, hox, rfl⟩ := List.mem_map.mp hx
    obtain ⟨oy, hoy, rfl⟩ := List.mem_map.mp hy
    exact scoreOne_total_congr _ _ _ (hattr ox hox oy hoy)
  have hsorted := sortByTotalDesc_of_const hconst
  rw [List.map_cons, List.map_cons] at hsorted
  refine ⟨_, scoreOptions_cons _ w p _ _ hsorted, ?_, ?_, ?_⟩
  · have hg : (scoreOne (blendWeights w p) (maxCost (a :: b :: os2)) (maxTime (a :: b :: os2)) a).weighted_total
        = (scoreOne (blendWeights w p) (maxCost (a :: b :: os2)) (maxTime (a :: b :: os2)) b).weighted_total :=
      scoreOne_total_congr _ _ _ (hattr a (by simp) b (by simp))
    simp only [List.head?_cons, Option.map_some', Option.getD_some, hg, sub_self]
    norm_num [round1, round_eq]
  · rw [rankFrom_map_option_id, ← List.map_cons, ← List.map_cons, List.map_map]
    apply List.map_congr_left
    intro o _
    rfl
  · rw [rankFrom_map_rank]
    simp

/-- C8 witness: the amended statement instantiated at two attribute
identical options with ids 1 and 2. -/
theorem claim_C8_w :
    ∃ r, scoreOptions [twinOptA, twinOptB] defaultWeights "balanced" = some r
      ∧ r.confidence = 50
      ∧ r.breakdown.map (fun b => b.option_id)
          = [twinOptA, twinOptB].map (fun o => o.id)
      ∧ r.breakdown.map (fun b => b.rank) = List.range' 1 [twinOptA, twinOptB].length :=
  claim_C8 [twinOptA, twinOptB] defaultWeights "balanced" (by simp)
    (by norm_num [blendSum, blendRaw, pm_balanced, defaultWeights, jsOr])
    (by
      intro x hx y hy
      simp only [List.mem_cons, List.mem_singleton, List.not_mem_nil] at hx hy
      rcases hx with rfl | rfl | h
      · rcases hy with rfl | rfl | h
        · rfl
        · rfl
        · cases h
      · rcases hy with rfl | rfl | h
        · rfl
        · rfl
        · cases h
      · cases h)

/-- C10 counterexample: the unknown personality string "constructor" does
not behave like "balanced" — the JavaScript lookup finds the inherited
`Object.prototype.constructor`, which is truthy, so the balanced fallback
is skipped and the blend uses zero personality mods: with user weights
configuring only cost, the blended vector is (1,0,0,0,0) instead of
(0.7,0.08,0.1,0.06,0.06), and scoring two featureless options gives totals
100/100 instead of 89/89. -/
theorem claim_C10_cex :
    blendWeights costOnlyWeights "constructor" = ⟨1, 0, 0, 0, 0⟩
    ∧ blendWeights costOnlyWeights "balanced" = ⟨0.7, 0.08, 0.1, 0.06, 0.06⟩
    ∧ ((scoreOptions [plainOptA, plainOptB] costOnlyWeights "constructor").map totalsOf
        = some [100, 100])
    ∧ ((scoreOptions [plainOptA, plainOptB] costOnlyWeights "balanced").map totalsOf
        = some [89, 89])
    ∧ scoreOptions [plainOptA, plainOptB] costOnlyWeights "constructor"
        ≠ scoreOptions [plainOptA, plainOptB] costOnlyWeights "balanced" := by
  refine ⟨?_, ?_, ?_, ?_, ?_⟩
  · norm_num [blendWeights, blendRaw, blendSum, pm_constructor, costOnlyWeights, jsOr]
  · norm_num [blendWeights, blendRaw, blendSum, pm_balanced, costOnlyWeights, jsOr]
  · norm_num [scoreOptions, blendWeights, blendRaw, blendSum, pm_constructor,
      costOnlyWeights, plainOptA, plainOptB, jsOr, maxCost, maxTime, scoreOne, costScore,
      timeScore, riskScore, priorityScore, rewardScore, round2, round1, round_eq,
      insertDesc, sortByTotalDesc, rankFrom, assignRanks, classifyRisk, max_def, min_def,
      totalsOf]
  · norm_num [scoreOptions, blendWeights, blendRaw, blendSum, pm_balanced,
      costOnlyWeights, plainOptA, plainOptB, jsOr, maxCost, maxTime, scoreOne, costScore,
      timeScore, riskScore, priorityScore, rewardScore, round2, round1, round_eq,
      insertDesc, sortByTotalDesc, rankFrom, assignRanks, classifyRisk, max_def, min_def,
      totalsOf]
  · intro heq
    have h1 : (scoreOptions [plainOptA, plainOptB] costOnlyWeights "constructor").map totalsOf
        = some [100, 100] := by
      norm_num [scoreOptions, blendWeights, blendRaw, blendSum, pm_constructor,
        costOnlyWeights, plainOptA, plainOptB, jsOr, maxCost, maxTime, scoreOne, costScore,
        timeScore, riskScore, priorityScore, rewardScore, round2, round1, round_eq,
        insertDesc, sortByTotalDesc, rankFrom, assignRanks, classifyRisk, max_def, min_def,
        totalsOf]
    have h2 : (scoreOptions [plainOptA, plainOptB] costOnlyWeights "balanced").map totalsOf
        = some [89, 89] := by
      norm_num [scoreOptions, blendWeights, blendRaw, blendSum, pm_balanced,
        costOnlyWeights, plainOptA, plainOptB, jsOr, maxCost, maxTime, scoreOne, costScore,
        timeScore, riskScore, priorityScore, rewardScore, round2, round1, round_eq,
        insertDesc, sortByTotalDesc, rankFrom, assignRanks, classifyRisk, max_def, min_def,
        totalsOf]
    rw [heq, h2] at h1
    have : ([89, 89] : List ℚ) = [100, 100] := by injection h1
    simp at this

/-- C10 (amended): a personality string that is none of "conservative",
"balanced", "aggressive" and is also not a property name inherited from
`Object.prototype` looks up `undefined`, falls back to the balanced table,
and therefore behaves exactly like "balanced"; for the inherited names
(constructor, toString, valueOf, __proto__, ...) the truthy lookup skips
the fallback and the blend instead uses zero personality mods. -/
theorem claim_C10 :
    ∀ p : String, p ≠ "conservative" → p ≠ "balanced" → p ≠ "aggressive" →
      p ∉ objectPrototypeNames →
      ∀ (os : List Opt) (w : UserWeights),
        scoreOptions os w p = scoreOptions os w "balanced" := by
  intro p h1 h2 h3 h4 os w
  have hm : PERSONALITY_MODS p = PERSONALITY_MODS "balanced" := pm_of_unknown p h1 h2 h3 h4
  simp only [scoreOptions, blendWeights, blendRaw, blendSum, hm]

/-- C10 witness: scoring with the unknown (and non-inherited) personality
string "bold" gives the same result as scoring with "balanced" on a
concrete pair of options. -/
theorem claim_C10_w :
    scoreOptions [twinOptA, twinOptB] defaultWeights "bold"
      = scoreOptions [twinOptA, twinOptB] defaultWeights "balanced" :=
  claim_C10 "bold" (by simp) (by simp) (by simp)
    (by simp [objectPrototypeNames]) [twinOptA, twinOptB] defaultWeights

end DecisionAI
